import Mathlib

/-!
Shallow embedding of the ReportAI client.

The embedded code is the `SmartReportGenerator` class (wizard state machine,
backend gateway calls, image manifest builder, status presenter) and the
traditional-flow form submit handler in `frontend/script.js`.

Modelling conventions:
* The mutable fields of the class instance (`this.currentStep`, `this.totalSteps`,
  `this.documentId`, `this.uploadedImages`, `this.analysisData`) form `Session`.
* The DOM elements the code mutates (the status element, the analysis preview)
  form `Dom`.  Purely decorative DOM work (CSS classes on step indicators,
  progress-bar width, image-list markup) is not represented.
* Network traffic and downloads are recorded as a list of `Effect` values;
  the response a `fetch` would produce is passed in as an explicit argument,
  so each async handler becomes a pure function
  `Session → Dom → inputs → response → (Session × Dom) × List Effect`.
* JavaScript truthiness on nullable strings (`!this.documentId`, `!apiKey`)
  is `jsTruthy`: `null`/absent and the empty string are falsy.
-/

namespace ReportAI

/-- An uploaded image as stored in `this.uploadedImages` (the code only ever
reads its `filename` field). -/
structure UploadedImage where
  filename : String
  deriving DecidableEq, Repr

/-- The parsed JSON of a successful `/analyze-sample` response, as far as the
client stores it (`analysis.document_id` is the only field later read back;
the numeric formatting score is displayed once and never stored, so it is
omitted). -/
structure AnalysisData where
  document_id : String
  template_compatibility : String
  content_sections : List String
  deriving DecidableEq, Repr

/-- The mutable instance fields of `SmartReportGenerator`. -/
structure Session where
  currentStep : Nat
  totalSteps : Nat
  documentId : Option String
  uploadedImages : List UploadedImage
  analysisData : Option AnalysisData
  deriving DecidableEq, Repr

/-- The constructor of `SmartReportGenerator`. -/
def initialSession : Session :=
  { currentStep := 1, totalSteps := 4, documentId := none,
    uploadedImages := [], analysisData := none }

/-- The DOM state the class mutates: the status message element and the
analysis preview element. -/
structure Dom where
  statusText : String
  statusKind : String
  statusHidden : Bool
  analysisPreviewHidden : Bool
  deriving DecidableEq, Repr

/-- Externally visible side effects of a handler. -/
inductive Effect where
  | networkCall (endpoint : String)
  | download (filename : String)
  | scheduleAdvance (delayMs : Nat)
  deriving DecidableEq, Repr

/-- JavaScript truthiness of a nullable string: `null` and `""` are falsy. -/
def jsTruthy : Option String → Bool
  | none => false
  | some s => s ≠ ""

/-- The state change of `showStatus(message, type)` (part_000 lines 411-415):
set the text, set the kind class, unhide.  The success auto-hide timer is
modelled separately in `StatusBox` below. -/
def showStatus (d : Dom) (msg : String) (kind : String := "info") : Dom :=
  { d with statusText := msg, statusKind := kind, statusHidden := false }

/-- `nextStep()` (part_000 lines 203-212); the display and progress updates
touch only decorative DOM state. -/
def nextStep (s : Session) : Session :=
  if s.currentStep < s.totalSteps then
    { s with currentStep := s.currentStep + 1 }
  else s

/-- `previousStep()` (part_000 lines 214-223). -/
def previousStep (s : Session) : Session :=
  if 1 < s.currentStep then
    { s with currentStep := s.currentStep - 1 }
  else s

/-- `resetAnalysis()` (part_000 lines 132-137): hide the analysis preview and
clear both stored analysis fields. -/
def resetAnalysis (s : Session) (d : Dom) : Session × Dom :=
  ({ s with analysisData := none, documentId := none },
   { d with analysisPreviewHidden := true })

/-- The change listener on the sample-file input (part_000 lines 57-59) calls
`resetAnalysis` and nothing else. -/
def onSampleFileChange (s : Session) (d : Dom) : Session × Dom :=
  resetAnalysis s d

/-! JavaScript string primitives, embedded as structural recursions over
character lists so that every concrete instance evaluates inside the kernel.
All call sites in the code use non-empty separators and patterns; behaviour
on an empty separator is left unspecified by these embeddings. -/

/-- One step of JS `String.prototype.replace` with a string pattern: only the
first occurrence is replaced. -/
def jsReplaceFirstL (pat rep : List Char) : List Char → List Char
  | [] => []
  | c :: rest =>
    if pat.isPrefixOf (c :: rest) && !pat.isEmpty then
      rep ++ List.drop pat.length (c :: rest)
    else
      c :: jsReplaceFirstL pat rep rest

/-- JS `s.replace(pat, rep)` with a string pattern (first occurrence only). -/
def jsReplaceFirst (s pat rep : String) : String :=
  String.mk (jsReplaceFirstL pat.toList rep.toList s.toList)

/-- Fuel-indexed splitter; `fuel` bounds the number of characters consumed,
so `fuel = l.length` always suffices. -/
def jsSplitAux (sep : List Char) : Nat → List Char → List (List Char)
  | _, [] => [[]]
  | 0, l => [l]
  | fuel + 1, c :: rest =>
    if sep.isPrefixOf (c :: rest) && !sep.isEmpty then
      [] :: jsSplitAux sep fuel (List.drop (sep.length - 1) rest)
    else
      match jsSplitAux sep fuel rest with
      | [] => [[c]]
      | piece :: pieces => (c :: piece) :: pieces

/-- JS `s.split(sep)` for a non-empty string separator. -/
def jsSplit (s sep : String) : List String :=
  (jsSplitAux sep.toList s.toList.length s.toList).map String.mk

/-- JS `s.includes(sub)` for non-empty `sub`: splitting on an occurring
substring yields more than one piece. -/
def jsIncludes (s sub : String) : Bool :=
  (jsSplit s sub).length != 1

/-- JS `s.replace(/"/g, "")`: remove every double-quote character. -/
def jsRemoveQuotes (s : String) : String :=
  String.mk (s.toList.filter (fun c => c != '\"'))

/-- JS `s.trim()`: strip leading and trailing whitespace. -/
def jsTrim (s : String) : String :=
  String.mk
    (((s.toList.dropWhile Char.isWhitespace).reverse.dropWhile
        Char.isWhitespace).reverse)

/-- A fetch response as the generation handlers consume it: the `ok` flag,
the status text quoted in error messages, and the Content-Disposition header
of the body (present on the wire whether or not the handler reads it). -/
structure HttpResp where
  ok : Bool
  statusText : String
  contentDisposition : Option String
  deriving DecidableEq, Repr

/-- The three form fields `generateReport` validates, together with the label
text its error message quotes (`field.previousElementSibling.textContent`).
The remaining fields are copied verbatim into the outgoing form data and play
no role in any control decision, so they are not modelled. -/
structure GenForm where
  student_name : String
  roll_no : String
  topic : String
  studentLabel : String
  rollLabel : String
  topicLabel : String
  deriving DecidableEq, Repr

/-- The download filename the smart flow constructs client-side (part_000
lines 373-377): `Smart_Report_` then the student name with its first space
replaced by an underscore, an underscore, the roll number, and `.docx`.  The
Content-Disposition header of the response is never consulted. -/
def smartDownloadName (form : GenForm) : String :=
  "Smart_Report_" ++ jsReplaceFirst form.student_name " " "_" ++ "_" ++
    form.roll_no ++ ".docx"

/-- `generateReport()` (part_000 lines 275-388).  Guard order is that of the
code: stored document id first (JS truthiness), then the three required
fields in order, then the fetch; a non-ok response throws into the catch
block, an ok response triggers the download of the client-named file. -/
def generateReport (s : Session) (d : Dom) (form : GenForm) (resp : HttpResp) :
    (Session × Dom) × List Effect :=
  if !jsTruthy s.documentId then
    ((s, showStatus d "Please analyze a sample document first." "error"), [])
  else if jsTrim form.student_name = "" then
    ((s, showStatus d ("Please fill in " ++ form.studentLabel) "error"), [])
  else if jsTrim form.roll_no = "" then
    ((s, showStatus d ("Please fill in " ++ form.rollLabel) "error"), [])
  else if jsTrim form.topic = "" then
    ((s, showStatus d ("Please fill in " ++ form.topicLabel) "error"), [])
  else if resp.ok then
    ((s, showStatus d "Report generated successfully!" "success"),
     [Effect.networkCall "/generate-smart-report",
      Effect.download (smartDownloadName form)])
  else
    ((s,
      showStatus d ("Generation error: Generation failed: " ++ resp.statusText)
        "error"),
     [Effect.networkCall "/generate-smart-report"])

/-- The filename computation of the traditional submit handler (script.js
lines 28-33): start from `Report.docx`; when the Content-Disposition header
is truthy and mentions `filename=`, take the text after the first
`filename=`, cut at the first semicolon, and drop every double quote. -/
def traditionalFilename (contentDisposition : Option String) : String :=
  match contentDisposition with
  | none => "Report.docx"
  | some cd =>
    if cd != "" && jsIncludes cd "filename=" then
      jsRemoveQuotes
        ((jsSplit ((jsSplit cd "filename=").getD 1 "") ";").headD "")
    else "Report.docx"

/-- The body of a JSON response as `handleImageUpload` consumes it:
`response.json()` either resolves to an object whose `uploaded_images` field
may be absent, or rejects (unparseable body), which lands in the catch
block. -/
inductive JsonBody where
  | parsed (uploaded_images : Option (List UploadedImage))
  | unparseable (errMsg : String)
  deriving DecidableEq, Repr

/-- The outcome of the `fetch` in `handleImageUpload`: transport-level
rejection, or a response carrying an HTTP `ok` flag and a body.  The code
never reads the `ok` flag. -/
inductive FetchResult where
  | transportError (errMsg : String)
  | response (ok : Bool) (body : JsonBody)
  deriving DecidableEq, Repr

/-- `handleImageUpload(files)` (part_000 lines 139-172): clear the stored
set first; with no files selected, stop there.  Otherwise post the files;
the response body is parsed unconditionally — the HTTP status is never
inspected — and `data.uploaded_images || []` becomes the new set, with a
success message; only a transport failure or an unparseable body reaches the
catch block and its error message. -/
def handleImageUpload (s : Session) (d : Dom) (files : List String)
    (res : FetchResult) : (Session × Dom) × List Effect :=
  let s1 := { s with uploadedImages := ([] : List UploadedImage) }
  if files.length = 0 then ((s1, d), [])
  else
    match res with
    | FetchResult.transportError m =>
        ((s1, showStatus d ("Image upload failed: " ++ m) "error"),
         [Effect.networkCall "/upload-images"])
    | FetchResult.response _ body =>
      match body with
      | JsonBody.unparseable m =>
          ((s1, showStatus d ("Image upload failed: " ++ m) "error"),
           [Effect.networkCall "/upload-images"])
      | JsonBody.parsed u =>
        let imgs := u.getD []
        (({ s1 with uploadedImages := imgs },
          showStatus d (toString imgs.length ++ " images uploaded successfully!")
            "success"),
         [Effect.networkCall "/upload-images"])

/-- The outcome of the `fetch` in `analyzeSample`: transport-level rejection,
or a response with its `ok` flag, status text and (for ok responses) the
parsed analysis JSON. -/
inductive AnalyzeResult where
  | transportError (errMsg : String)
  | response (ok : Bool) (statusText : String) (body : AnalysisData)
  deriving DecidableEq, Repr

/-- `analyzeSample()` (part_000 lines 73-114): with no file selected, an
error message and no network traffic.  Otherwise post the file; a non-ok
response throws `Analysis failed: <statusText>` into the catch block, which
shows `Analysis error: <message>` and leaves every stored field alone.  On
success the analysis and its document id are stored, the preview is shown, a
success message appears, the engine status is queried best-effort, and a
step advance is scheduled 1500 ms out. -/
def analyzeSample (s : Session) (d : Dom) (sampleFiles : List String)
    (res : AnalyzeResult) : (Session × Dom) × List Effect :=
  if sampleFiles.length = 0 then
    ((s, showStatus d "Please select a sample document first." "error"), [])
  else
    match res with
    | AnalyzeResult.transportError m =>
        ((s, showStatus d ("Analysis error: " ++ m) "error"),
         [Effect.networkCall "/analyze-sample"])
    | AnalyzeResult.response ok statusText body =>
      if ok then
        (({ s with analysisData := some body,
                   documentId := some body.document_id },
          showStatus { d with analysisPreviewHidden := false }
            "Document analyzed successfully!" "success"),
         [Effect.networkCall "/analyze-sample",
          Effect.networkCall "/gemini-status",
          Effect.scheduleAdvance 1500])
      else
        ((s,
          showStatus d ("Analysis error: Analysis failed: " ++ statusText)
            "error"),
         [Effect.networkCall "/analyze-sample"])

/-- The outcome of the `fetch` plus `response.json()` in
`configureGeminiAPI`: transport-level rejection or an unparseable body (both
land in the catch block), or a parsed body whose `status` field may be
absent.  The HTTP status flag is never inspected by the code, so it does not
appear. -/
inductive ConfigureResult where
  | transportError (errMsg : String)
  | parsed (status : Option String)
  deriving DecidableEq, Repr

/-- `configureGeminiAPI()` (part_000 lines 458-487): a cancelled or empty
prompt ends the handler with no traffic.  Otherwise one post; a body with
`status == "success"` yields the fixed success message and a best-effort
status refresh, any other parsed body yields the fixed failure message, and
a transport or parse failure yields `Configuration error: <message>`. -/
def configureGeminiAPI (d : Dom) (apiKey : Option String)
    (res : ConfigureResult) : Dom × List Effect :=
  if !jsTruthy apiKey then (d, [])
  else
    match res with
    | ConfigureResult.transportError m =>
        (showStatus d ("Configuration error: " ++ m) "error",
         [Effect.networkCall "/configure-gemini"])
    | ConfigureResult.parsed st =>
      if st = some "success" then
        (showStatus d "Gemini API configured successfully!" "success",
         [Effect.networkCall "/configure-gemini",
          Effect.networkCall "/gemini-status"])
      else
        (showStatus d "Failed to configure Gemini API" "error",
         [Effect.networkCall "/configure-gemini"])

/-- One entry of the image manifest built by `prepareImageData`. -/
structure ImageEntry where
  filename : String
  caption : String
  content_relevance : String
  deriving DecidableEq, Repr

/-- The body of the `forEach` in `prepareImageData` at display index `i`
with caption text `c` and selected section `sec`: a manifest entry is pushed
only when the trimmed caption is truthy and an uploaded image exists at the
same index. -/
def prepOfIdx (imgs : List UploadedImage) (i : Nat) (f : String × String) :
    Option ImageEntry :=
  let caption := jsTrim f.1
  if caption = "" then none
  else
    match imgs[i]? with
    | some img => some ⟨img.filename, caption, f.2⟩
    | none => none

/-- `prepareImageData()` (part_000 lines 390-409): walk the caption/section
input pairs in display order with their index and collect the pushed
entries. -/
def prepareImageData (imgs : List UploadedImage)
    (forms : List (String × String)) : List ImageEntry :=
  forms.enum.filterMap (fun p => prepOfIdx imgs p.1 p.2)

/-- Lockstep reformulation of `prepareImageData`, walking the two lists in
parallel; equal to it by `prepareImageData_eq_lockstep` below and easier to
induct on. -/
def prepareImageDataL : List UploadedImage → List (String × String) →
    List ImageEntry
  | _, [] => []
  | [], _ :: fs => prepareImageDataL [] fs
  | img :: imgs, f :: fs =>
    (if jsTrim f.1 = "" then [] else [⟨img.filename, jsTrim f.1, f.2⟩]) ++
      prepareImageDataL imgs fs

/-- The status element together with the hide timers scheduled against it;
`timers` holds the absolute firing times (ms) of the pending
`setTimeout` callbacks from `showStatus` (part_000 lines 417-422). -/
structure StatusBox where
  text : String
  kind : String
  hidden : Bool
  timers : List Nat
  deriving DecidableEq, Repr

/-- The status element before any message: hidden, no pending timers. -/
def initialStatusBox : StatusBox :=
  { text := "", kind := "", hidden := true, timers := [] }

/-- `showStatus(message, type)` at absolute time `t`: set text and kind,
unhide, and for a success message schedule a hide 5000 ms out.  Scheduled
timers are never cancelled by the code. -/
def showStatusAt (t : Nat) (m : StatusBox) (msg kind : String) : StatusBox :=
  { text := msg, kind := kind, hidden := false,
    timers := if kind = "success" then m.timers ++ [t + 5000] else m.timers }

/-- Fire every pending timer due at or before time `t`: each firing adds the
`hidden` class to the status element, whatever it currently displays. -/
def fireExpired (t : Nat) (m : StatusBox) : StatusBox :=
  { m with hidden := m.hidden || m.timers.any (fun e => e ≤ t),
           timers := m.timers.filter (fun e => t < e) }

/-- Run a time-ordered trace of `showStatus` calls, firing due timers before
each call, then fire whatever is due by the observation time `tEnd`. -/
def runStatus : StatusBox → List (Nat × String × String) → Nat → StatusBox
  | m, [], tEnd => fireExpired tEnd m
  | m, (t, msg, kind) :: rest, tEnd =>
      runStatus (showStatusAt t (fireExpired t m) msg kind) rest tEnd

end ReportAI

namespace ReportAI

/-- C1: with `totalSteps = 4`, both step operations keep `currentStep` in
`[1,4]`; `nextStep` at step 4 and `previousStep` at step 1 leave the whole
state unchanged, and otherwise they move the step by exactly one. -/
theorem wizard_step_invariant (s : Session)
    (h1 : 1 ≤ s.currentStep) (h4 : s.currentStep ≤ 4) (ht : s.totalSteps = 4) :
    (1 ≤ (nextStep s).currentStep ∧ (nextStep s).currentStep ≤ 4) ∧
    (1 ≤ (previousStep s).currentStep ∧ (previousStep s).currentStep ≤ 4) ∧
    (s.currentStep = 4 → nextStep s = s) ∧
    (s.currentStep = 1 → previousStep s = s) ∧
    (s.currentStep < 4 → (nextStep s).currentStep = s.currentStep + 1) ∧
    (1 < s.currentStep → (previousStep s).currentStep = s.currentStep - 1) := by
  simp only [nextStep, previousStep, ht]
  constructor
  · split <;> (simp_all; try omega)
  constructor
  · split <;> (simp_all; try omega)
  constructor
  · intro h; simp [h]
  constructor
  · intro h; simp [h]
  constructor
  · intro h; simp [h]
  · intro h
    have : 1 < s.currentStep := h
    simp [this]

/-- C1 witness: the invariant theorem applied at the initial session state. -/
theorem wizard_step_invariant_witness :
    (1 ≤ (nextStep initialSession).currentStep ∧
      (nextStep initialSession).currentStep ≤ 4) ∧
    (1 ≤ (previousStep initialSession).currentStep ∧
      (previousStep initialSession).currentStep ≤ 4) ∧
    (initialSession.currentStep = 4 → nextStep initialSession = initialSession) ∧
    (initialSession.currentStep = 1 → previousStep initialSession = initialSession) ∧
    (initialSession.currentStep < 4 →
      (nextStep initialSession).currentStep = initialSession.currentStep + 1) ∧
    (1 < initialSession.currentStep →
      (previousStep initialSession).currentStep = initialSession.currentStep - 1) :=
  wizard_step_invariant initialSession (by decide) (by decide) (by decide)

/-- Head of a dropped list is positional lookup. -/
theorem head?_drop {α : Type} (l : List α) (n : Nat) :
    (l.drop n).head? = l[n]? := by
  induction l generalizing n with
  | nil => simp
  | cons a l ih =>
    cases n with
    | zero => simp
    | succ m =>
      rw [List.drop_succ_cons, List.getElem?_cons_succ]
      exact ih m

/-- The lockstep builder yields nothing when no image was uploaded. -/
theorem prepareImageDataL_nil_left (fs : List (String × String)) :
    prepareImageDataL [] fs = [] := by
  induction fs with
  | nil => rfl
  | cons f fs ih => rw [prepareImageDataL, ih]

/-- The enumerated traversal starting at index `n` sees exactly the uploads
from position `n` on. -/
theorem enumFrom_filterMap_prep (fs : List (String × String))
    (imgs : List UploadedImage) (n : Nat) :
    (List.enumFrom n fs).filterMap (fun p => prepOfIdx imgs p.1 p.2) =
      prepareImageDataL (imgs.drop n) fs := by
  induction fs generalizing n with
  | nil =>
    rw [List.enumFrom_nil, List.filterMap_nil]
    cases imgs.drop n <;> rfl
  | cons f fs ih =>
    have hget : imgs[n]? = (imgs.drop n).head? := (head?_drop imgs n).symm
    have hdrop : (imgs.drop n).tail = imgs.drop (n + 1) := List.tail_drop imgs n
    match hd : imgs.drop n with
    | [] =>
      have h0 : prepOfIdx imgs n f = none := by
        simp [prepOfIdx, hget, hd]
      have h1 : imgs.drop (n + 1) = [] := by rw [← hdrop, hd]; rfl
      rw [List.enumFrom_cons, List.filterMap_cons, h0, ih (n + 1), h1]
      simp [prepareImageDataL, prepareImageDataL_nil_left]
    | img :: rest =>
      have h0 : prepOfIdx imgs n f =
          (if jsTrim f.1 = "" then none
           else some ⟨img.filename, jsTrim f.1, f.2⟩) := by
        simp [prepOfIdx, hget, hd]
      have h1 : imgs.drop (n + 1) = rest := by rw [← hdrop, hd]; rfl
      rw [List.enumFrom_cons, List.filterMap_cons, h0, ih (n + 1), h1]
      by_cases hc : jsTrim f.1 = "" <;>
        simp [prepareImageDataL, hc]

/-- `prepareImageData` agrees with its lockstep reformulation. -/
theorem prepareImageData_eq_lockstep (imgs : List UploadedImage)
    (forms : List (String × String)) :
    prepareImageData imgs forms = prepareImageDataL imgs forms := by
  have h := enumFrom_filterMap_prep forms imgs 0
  rw [List.drop_zero] at h
  exact h

/-- C4: when the caption/section pairs are in bijection with the uploads
(one input pair per uploaded image, paired by position), the manifest is
exactly the display-ordered list of pairs whose trimmed caption is
non-empty, each entry copying the image filename, the trimmed caption, and
the selected section verbatim. -/
theorem image_manifest_caption_filter (imgs : List UploadedImage)
    (forms : List (String × String)) (h : forms.length = imgs.length) :
    prepareImageData imgs forms =
      ((forms.zip imgs).filter (fun p => jsTrim p.1.1 != "")).map
        (fun p => ⟨p.2.filename, jsTrim p.1.1, p.1.2⟩) := by
  rw [prepareImageData_eq_lockstep]
  induction forms generalizing imgs with
  | nil =>
    cases imgs with
    | nil => rfl
    | cons img rest => simp at h
  | cons f fs ih =>
    cases imgs with
    | nil => simp at h
    | cons img rest =>
      have h' : fs.length = rest.length := by
        simpa using h
      by_cases hc : jsTrim f.1 = "" <;>
        simp [prepareImageDataL, List.zip_cons_cons, List.filter_cons, hc,
          ih rest h']

/-- C4 witness: the spec scenario — two uploads, only the second captioned
`Figure 2: results graph` with section `results` — yields the single-entry
manifest for the second image. -/
theorem image_manifest_caption_filter_witness :
    ([("", "auto"), ("Figure 2: results graph", "results")] :
        List (String × String)).length =
      ([⟨"img1.png"⟩, ⟨"img2.png"⟩] : List UploadedImage).length ∧
    prepareImageData [⟨"img1.png"⟩, ⟨"img2.png"⟩]
        [("", "auto"), ("Figure 2: results graph", "results")] =
      [⟨"img2.png", "Figure 2: results graph", "results"⟩] := by
  refine ⟨by decide, ?_⟩
  rw [image_manifest_caption_filter _ _ (by decide)]
  decide

/-- Entries produced by the lockstep builder all point at an uploaded image
and its paired form fields. -/
theorem prepareImageDataL_mem (imgs : List UploadedImage)
    (fs : List (String × String)) (e : ImageEntry)
    (he : e ∈ prepareImageDataL imgs fs) :
    ∃ (i : Nat) (img : UploadedImage), imgs[i]? = some img ∧
      e.filename = img.filename ∧
      ∃ (f : String × String), fs[i]? = some f ∧ e.caption = jsTrim f.1 ∧
        e.content_relevance = f.2 := by
  induction fs generalizing imgs with
  | nil =>
    rw [show prepareImageDataL imgs [] = [] from by cases imgs <;> rfl] at he
    simp at he
  | cons f fs ih =>
    cases imgs with
    | nil => rw [prepareImageDataL_nil_left] at he; simp at he
    | cons img rest =>
      rw [prepareImageDataL, List.mem_append] at he
      rcases he with he | he
      · by_cases hc : jsTrim f.1 = ""
        · rw [if_pos hc] at he; simp at he
        · rw [if_neg hc, List.mem_singleton] at he
          subst he
          exact ⟨0, img, by simp, rfl, f, by simp, rfl, rfl⟩
      · obtain ⟨i, img', hi, hf, f', hf', hc', hr'⟩ := ih rest he
        refine ⟨i + 1, img', ?_, hf, f', ?_, hc', hr'⟩
        · simpa using hi
        · simpa using hf'

/-- The lockstep builder never yields more entries than uploads. -/
theorem prepareImageDataL_length (imgs : List UploadedImage)
    (fs : List (String × String)) :
    (prepareImageDataL imgs fs).length ≤ imgs.length := by
  induction fs generalizing imgs with
  | nil => cases imgs <;> simp [prepareImageDataL]
  | cons f fs ih =>
    cases imgs with
    | nil => simp [prepareImageDataL_nil_left]
    | cons img rest =>
      rw [prepareImageDataL, List.length_append]
      have := ih rest
      by_cases hc : jsTrim f.1 = "" <;> simp [hc] <;> omega

/-- C10: for every form-field state, the manifest never outgrows the upload
list, and each entry names the filename of the actually uploaded image at
its index — an index with a caption but no uploaded image produces no
entry. -/
theorem manifest_entries_reference_uploads (imgs : List UploadedImage)
    (forms : List (String × String)) :
    (prepareImageData imgs forms).length ≤ imgs.length ∧
    ∀ e ∈ prepareImageData imgs forms, ∃ (i : Nat) (img : UploadedImage),
      imgs[i]? = some img ∧ e.filename = img.filename ∧
      ∃ (f : String × String), forms[i]? = some f ∧ e.caption = jsTrim f.1 ∧
        e.content_relevance = f.2 := by
  rw [prepareImageData_eq_lockstep]
  exact ⟨prepareImageDataL_length imgs forms,
    fun e he => prepareImageDataL_mem imgs forms e he⟩

/-- C10 witness: with one upload but two captioned form rows, the manifest
stays within the upload count and its sole entry cites the uploaded file. -/
theorem manifest_entries_reference_uploads_witness :
    (prepareImageData [⟨"only.png"⟩]
        [("cap one", "auto"), ("cap two", "results")]).length ≤
      ([⟨"only.png"⟩] : List UploadedImage).length ∧
    (∃ (i : Nat) (img : UploadedImage),
      ([⟨"only.png"⟩] : List UploadedImage)[i]? = some img ∧
      (⟨"only.png", "cap one", "auto"⟩ : ImageEntry).filename = img.filename ∧
      ∃ (f : String × String),
        ([("cap one", "auto"), ("cap two", "results")] :
          List (String × String))[i]? = some f ∧
        (⟨"only.png", "cap one", "auto"⟩ : ImageEntry).caption = jsTrim f.1 ∧
        (⟨"only.png", "cap one", "auto"⟩ : ImageEntry).content_relevance =
          f.2) :=
  ⟨(manifest_entries_reference_uploads [⟨"only.png"⟩]
      [("cap one", "auto"), ("cap two", "results")]).1,
    (manifest_entries_reference_uploads [⟨"only.png"⟩]
        [("cap one", "auto"), ("cap two", "results")]).2
      ⟨"only.png", "cap one", "auto"⟩ (by decide)⟩

/-- C3: selecting a new sample file clears the analysis data and the document
id, hides the analysis preview, and changes nothing else, from every prior
state. -/
theorem sample_file_change_resets (s : Session) (d : Dom) :
    (onSampleFileChange s d).1.analysisData = none ∧
    (onSampleFileChange s d).1.documentId = none ∧
    (onSampleFileChange s d).2.analysisPreviewHidden = true ∧
    (onSampleFileChange s d).1.currentStep = s.currentStep ∧
    (onSampleFileChange s d).1.totalSteps = s.totalSteps ∧
    (onSampleFileChange s d).1.uploadedImages = s.uploadedImages ∧
    (onSampleFileChange s d).2.statusText = d.statusText ∧
    (onSampleFileChange s d).2.statusKind = d.statusKind ∧
    (onSampleFileChange s d).2.statusHidden = d.statusHidden := by
  simp [onSampleFileChange, resetAnalysis]

/-- C2: with no stored document id, `generateReport` shows the fixed
user-visible error message, issues no network call and no download, and
leaves the session untouched, at every wizard step and whatever response
the network would have produced. -/
theorem generate_without_analysis_fails (s : Session) (d : Dom)
    (form : GenForm) (resp : HttpResp) (h : s.documentId = none) :
    generateReport s d form resp =
      ((s, showStatus d "Please analyze a sample document first." "error"),
       []) := by
  simp [generateReport, jsTruthy, h]

/-- C2 witness: the theorem applied at the freshly constructed session. -/
theorem generate_without_analysis_fails_witness :
    generateReport initialSession ⟨"", "", true, true⟩
        ⟨"A", "1", "T", "Name", "Roll", "Topic"⟩ ⟨true, "OK", none⟩ =
      ((initialSession,
        showStatus ⟨"", "", true, true⟩
          "Please analyze a sample document first." "error"), []) :=
  generate_without_analysis_fails initialSession ⟨"", "", true, true⟩
    ⟨"A", "1", "T", "Name", "Roll", "Topic"⟩ ⟨true, "OK", none⟩ rfl

/-- C8 counterexample: a successful smart-flow generation whose response
carries a server-suggested filename in its Content-Disposition header is
saved under the client-built name, not the server-supplied one. -/
theorem smart_flow_ignores_server_filename :
    (generateReport ⟨4, 4, some "doc-1", [], none⟩ ⟨"", "", true, false⟩
        ⟨"John Doe", "123", "Topic", "Name", "Roll", "Topic"⟩
        ⟨true, "OK", some "attachment; filename=\"ServerChoice.docx\""⟩).2 =
      [Effect.networkCall "/generate-smart-report",
       Effect.download "Smart_Report_John_Doe_123.docx"] ∧
    ("Smart_Report_John_Doe_123.docx" : String) ≠ "ServerChoice.docx" := by
  exact ⟨by decide, by decide⟩

/-- C8 amended: only the traditional flow persists under the
server-suggested filename from Content-Disposition (with `Report.docx` as
the fallback); the smart flow always downloads under the client-constructed
`Smart_Report_<student>_<roll>.docx`, ignoring the header entirely. -/
theorem download_filename_policy (s : Session) (d : Dom) (form : GenForm)
    (st st' : String) (cd cd' : Option String)
    (hdoc : jsTruthy s.documentId = true)
    (h1 : jsTrim form.student_name ≠ "") (h2 : jsTrim form.roll_no ≠ "")
    (h3 : jsTrim form.topic ≠ "") :
    (generateReport s d form ⟨true, st, cd⟩).2 =
      [Effect.networkCall "/generate-smart-report",
       Effect.download (smartDownloadName form)] ∧
    (generateReport s d form ⟨true, st, cd⟩).2 =
      (generateReport s d form ⟨true, st', cd'⟩).2 ∧
    traditionalFilename (some "attachment; filename=\"Server Report.pdf\"") =
      "Server Report.pdf" ∧
    traditionalFilename none = "Report.docx" := by
  refine ⟨?_, ?_, by decide, by decide⟩ <;>
    simp [generateReport, hdoc, h1, h2, h3]

/-- C8 amended witness: the policy theorem applied at a concrete filled
form, with and without a server-suggested filename on the wire. -/
theorem download_filename_policy_witness :
    (generateReport ⟨4, 4, some "doc-1", [], none⟩ ⟨"", "", true, false⟩
        ⟨"John Doe", "123", "Topic", "Name", "Roll", "Topic"⟩
        ⟨true, "OK", some "attachment; filename=\"X.docx\""⟩).2 =
      [Effect.networkCall "/generate-smart-report",
       Effect.download (smartDownloadName
         ⟨"John Doe", "123", "Topic", "Name", "Roll", "Topic"⟩)] ∧
    (generateReport ⟨4, 4, some "doc-1", [], none⟩ ⟨"", "", true, false⟩
        ⟨"John Doe", "123", "Topic", "Name", "Roll", "Topic"⟩
        ⟨true, "OK", some "attachment; filename=\"X.docx\""⟩).2 =
      (generateReport ⟨4, 4, some "doc-1", [], none⟩ ⟨"", "", true, false⟩
        ⟨"John Doe", "123", "Topic", "Name", "Roll", "Topic"⟩
        ⟨true, "Server Error", none⟩).2 ∧
    traditionalFilename (some "attachment; filename=\"Server Report.pdf\"") =
      "Server Report.pdf" ∧
    traditionalFilename none = "Report.docx" :=
  download_filename_policy ⟨4, 4, some "doc-1", [], none⟩
    ⟨"", "", true, false⟩ ⟨"John Doe", "123", "Topic", "Name", "Roll", "Topic"⟩
    "OK" "Server Error" (some "attachment; filename=\"X.docx\"") none
    (by decide) (by decide) (by decide) (by decide)

/-- C5 counterexample: an upload whose response has a non-success HTTP
status but a parseable JSON body is reported as a success — the ok flag is
never read — instead of failing with an upload error. -/
theorem upload_http_error_reported_success :
    ((handleImageUpload ⟨1, 4, none, [⟨"old.png"⟩], none⟩ ⟨"", "", true, true⟩
        ["new.png"]
        (FetchResult.response false (JsonBody.parsed none))).1.2.statusKind =
      "success") ∧
    ((handleImageUpload ⟨1, 4, none, [⟨"old.png"⟩], none⟩ ⟨"", "", true, true⟩
        ["new.png"]
        (FetchResult.response false (JsonBody.parsed none))).1.2.statusText =
      "0 images uploaded successfully!") ∧
    ((handleImageUpload ⟨1, 4, none, [⟨"old.png"⟩], none⟩ ⟨"", "", true, true⟩
        ["new.png"]
        (FetchResult.response false (JsonBody.parsed none))).1.1.uploadedImages =
      []) := by
  decide

/-- C5 amended: `handleImageUpload` always discards the previous set (the
new set never depends on the old one); with no files selected it stops with
the set cleared; a transport failure or unparseable body yields an upload
error message with the set left cleared; and any response with a parseable
JSON body — whatever its HTTP status — is treated as success, the set
becoming the response body field `uploaded_images` or empty. -/
theorem upload_replacement_characterization (s s' : Session) (d : Dom)
    (files : List String) (res : FetchResult) :
    ((handleImageUpload s d files res).1.1.uploadedImages =
      (handleImageUpload s' d files res).1.1.uploadedImages) ∧
    (files.length = 0 →
      handleImageUpload s d files res =
        (({ s with uploadedImages := [] }, d), [])) ∧
    (∀ m, res = FetchResult.transportError m → files.length ≠ 0 →
      (handleImageUpload s d files res).1.1.uploadedImages = [] ∧
      (handleImageUpload s d files res).1.2.statusKind = "error" ∧
      (handleImageUpload s d files res).1.2.statusText =
        "Image upload failed: " ++ m) ∧
    (∀ ok m, res = FetchResult.response ok (JsonBody.unparseable m) →
      files.length ≠ 0 →
      (handleImageUpload s d files res).1.1.uploadedImages = [] ∧
      (handleImageUpload s d files res).1.2.statusKind = "error" ∧
      (handleImageUpload s d files res).1.2.statusText =
        "Image upload failed: " ++ m) ∧
    (∀ ok u, res = FetchResult.response ok (JsonBody.parsed u) →
      files.length ≠ 0 →
      (handleImageUpload s d files res).1.1.uploadedImages = u.getD [] ∧
      (handleImageUpload s d files res).1.2.statusKind = "success") := by
  by_cases hf : files.length = 0
  · rcases res with m | ⟨ok, body⟩ <;> simp [handleImageUpload, hf]
  · rcases res with m | ⟨ok, body⟩
    · simp [handleImageUpload, hf, showStatus]
    · rcases body with u | m <;> simp [handleImageUpload, hf, showStatus]

/-- C5 amended witness: the characterization applied to a concrete
transport failure over a previously non-empty set. -/
theorem upload_replacement_characterization_witness :
    (handleImageUpload ⟨1, 4, none, [⟨"old.png"⟩], none⟩ ⟨"", "", true, true⟩
        ["a.png"] (FetchResult.transportError "boom")).1.1.uploadedImages =
      ([] : List UploadedImage) ∧
    (handleImageUpload ⟨1, 4, none, [⟨"old.png"⟩], none⟩ ⟨"", "", true, true⟩
        ["a.png"] (FetchResult.transportError "boom")).1.2.statusKind =
      "error" ∧
    (handleImageUpload ⟨1, 4, none, [⟨"old.png"⟩], none⟩ ⟨"", "", true, true⟩
        ["a.png"] (FetchResult.transportError "boom")).1.2.statusText =
      "Image upload failed: boom" :=
  (upload_replacement_characterization ⟨1, 4, none, [⟨"old.png"⟩], none⟩
      ⟨1, 4, none, [⟨"old.png"⟩], none⟩ ⟨"", "", true, true⟩ ["a.png"]
      (FetchResult.transportError "boom")).2.2.1 "boom" rfl (by decide)

/-- C6: a failing analyze call (non-ok HTTP status) leaves every session
field — in particular the current step — unchanged, shows an error message
carrying the failure reason, performs only the one analyze request, and the
session remains usable: retrying with an ok response then stores the new
analysis. -/
theorem analyze_failure_keeps_state (s : Session) (d : Dom)
    (files : List String) (st : String) (body : AnalysisData)
    (hf : files.length ≠ 0) :
    (analyzeSample s d files (AnalyzeResult.response false st body)).1.1 =
      s ∧
    (analyzeSample s d files
        (AnalyzeResult.response false st body)).1.1.currentStep =
      s.currentStep ∧
    (analyzeSample s d files
        (AnalyzeResult.response false st body)).1.2.statusKind = "error" ∧
    (∃ pre, (analyzeSample s d files
        (AnalyzeResult.response false st body)).1.2.statusText = pre ++ st) ∧
    (analyzeSample s d files (AnalyzeResult.response false st body)).2 =
      [Effect.networkCall "/analyze-sample"] ∧
    ∀ (body' : AnalysisData) (st' : String),
      (analyzeSample
          (analyzeSample s d files
            (AnalyzeResult.response false st body)).1.1
          (analyzeSample s d files
            (AnalyzeResult.response false st body)).1.2
          files (AnalyzeResult.response true st' body')).1.1.analysisData =
        some body' := by
  refine ⟨?_, ?_, ?_, ⟨"Analysis error: Analysis failed: ", ?_⟩, ?_, ?_⟩ <;>
    simp [analyzeSample, hf, showStatus]

/-- C6 witness: the theorem applied to a concrete HTTP 500 outcome. -/
theorem analyze_failure_keeps_state_witness :
    (analyzeSample initialSession ⟨"", "", true, true⟩ ["sample.docx"]
        (AnalyzeResult.response false "Internal Server Error"
          ⟨"d", "c", []⟩)).1.1 = initialSession ∧
    (analyzeSample initialSession ⟨"", "", true, true⟩ ["sample.docx"]
        (AnalyzeResult.response false "Internal Server Error"
          ⟨"d", "c", []⟩)).1.1.currentStep = initialSession.currentStep ∧
    (analyzeSample initialSession ⟨"", "", true, true⟩ ["sample.docx"]
        (AnalyzeResult.response false "Internal Server Error"
          ⟨"d", "c", []⟩)).1.2.statusKind = "error" ∧
    (∃ pre, (analyzeSample initialSession ⟨"", "", true, true⟩ ["sample.docx"]
        (AnalyzeResult.response false "Internal Server Error"
          ⟨"d", "c", []⟩)).1.2.statusText = pre ++ "Internal Server Error") ∧
    (analyzeSample initialSession ⟨"", "", true, true⟩ ["sample.docx"]
        (AnalyzeResult.response false "Internal Server Error"
          ⟨"d", "c", []⟩)).2 = [Effect.networkCall "/analyze-sample"] ∧
    ∀ (body' : AnalysisData) (st' : String),
      (analyzeSample
          (analyzeSample initialSession ⟨"", "", true, true⟩ ["sample.docx"]
            (AnalyzeResult.response false "Internal Server Error"
              ⟨"d", "c", []⟩)).1.1
          (analyzeSample initialSession ⟨"", "", true, true⟩ ["sample.docx"]
            (AnalyzeResult.response false "Internal Server Error"
              ⟨"d", "c", []⟩)).1.2
          ["sample.docx"]
          (AnalyzeResult.response true st' body')).1.1.analysisData =
        some body' :=
  analyze_failure_keeps_state initialSession ⟨"", "", true, true⟩
    ["sample.docx"] "Internal Server Error" ⟨"d", "c", []⟩ (by decide)

/-- C7: evaluation of the status model at the failing trace — a success
message at 0 ms schedules a hide at 5000 ms that is never cancelled, so the
error message shown at 1000 ms is hidden once the stale timer fires, even
though no later message replaced it; by contrast an error with no preceding
success persists indefinitely, and a lone success does auto-clear at
5000 ms. -/
theorem stale_success_timer_hides_error :
    (runStatus initialStatusBox
        [(0, "Document analyzed successfully!", "success"),
         (1000, "Generation error: boom", "error")] 5000).hidden = true ∧
    (runStatus initialStatusBox
        [(0, "Document analyzed successfully!", "success"),
         (1000, "Generation error: boom", "error")] 5000).text =
      "Generation error: boom" ∧
    (runStatus initialStatusBox
        [(0, "Generation error: boom", "error")] 1000000).hidden = false ∧
    (runStatus initialStatusBox [(0, "Done", "success")] 5000).hidden =
      true := by
  decide

/-- C9 counterexample: a transport failure during credential configuration
shows `Configuration error: <reason>` — carrying the failure detail —
rather than the fixed detail-free failure message the claim requires for
every non-success outcome. -/
theorem configure_transport_error_shows_detail :
    (configureGeminiAPI ⟨"", "", true, true⟩ (some "my-key")
        (ConfigureResult.transportError "network down")).1.statusText =
      "Configuration error: network down" ∧
    ("Configuration error: network down" : String) ≠
      "Failed to configure Gemini API" := by
  decide

/-- C9 amended: with a non-empty key, exactly one configuration request is
issued (never retried); a body reporting status `success` yields the fixed
configured message, any other parsed body yields the fixed detail-free
failure message, while a transport or parse failure yields a
`Configuration error:` message carrying the reason; a cancelled or empty
prompt does nothing at all. -/
theorem configure_outcome_characterization (d : Dom) (apiKey : String)
    (res : ConfigureResult) (hk : apiKey ≠ "") :
    ((configureGeminiAPI d (some apiKey) res).2.count
        (Effect.networkCall "/configure-gemini") = 1) ∧
    (res = ConfigureResult.parsed (some "success") →
      (configureGeminiAPI d (some apiKey) res).1.statusText =
        "Gemini API configured successfully!" ∧
      (configureGeminiAPI d (some apiKey) res).1.statusKind = "success") ∧
    (∀ st, res = ConfigureResult.parsed st → st ≠ some "success" →
      (configureGeminiAPI d (some apiKey) res).1.statusText =
        "Failed to configure Gemini API" ∧
      (configureGeminiAPI d (some apiKey) res).1.statusKind = "error") ∧
    (∀ m, res = ConfigureResult.transportError m →
      (configureGeminiAPI d (some apiKey) res).1.statusText =
        "Configuration error: " ++ m ∧
      (configureGeminiAPI d (some apiKey) res).1.statusKind = "error") ∧
    (configureGeminiAPI d none res = (d, [])) := by
  rcases res with m | st
  · simp [configureGeminiAPI, jsTruthy, hk, showStatus]
  · by_cases hs : st = some "success" <;>
      simp [configureGeminiAPI, jsTruthy, hk, showStatus, hs]

/-- C9 amended witness: the characterization applied to a concrete server
rejection. -/
theorem configure_outcome_characterization_witness :
    (configureGeminiAPI ⟨"", "", true, true⟩ (some "my-key")
        (ConfigureResult.parsed (some "invalid_key"))).1.statusText =
      "Failed to configure Gemini API" ∧
    (configureGeminiAPI ⟨"", "", true, true⟩ (some "my-key")
        (ConfigureResult.parsed (some "invalid_key"))).1.statusKind =
      "error" :=
  (configure_outcome_characterization ⟨"", "", true, true⟩ "my-key"
      (ConfigureResult.parsed (some "invalid_key")) (by decide)).2.2.1
    (some "invalid_key") rfl (by decide)

end ReportAI
